import Mathlib

/-!
Verification development for the image-survey application in
`streamlit_app.py` (a single-page Streamlit study tool).

The Python source is shallowly embedded below:
* the filesystem visible to the app is a value of `Fs` (directory listings
  that may fail, mirroring `os.listdir` raising);
* `list_folders` / `list_images` embed the catalog-loader helpers;
* the "Start / Refresh" handler is `startRefresh`, parameterised over an
  abstract seeded-shuffle function `sh : String → List String → List String`
  standing for `random.Random(seed).shuffle` (a pure function of its seed
  string in CPython);
* the checkbox callbacks `_select_best` / `_select_worst` / `_select_none`
  act on a `SessionState`;
* the export block (results table, CSV text, disk write, download button)
  is embedded by `rowFor` / `resultsRows` / `csvText` / `exportToDisk`.
  The reference to the undefined Python name `none_label` in the
  `mode == "none"` branch is embedded as an `Except.error` (a `NameError`
  at runtime).
-/

namespace MirrorOTW

/-- A filesystem as the app observes it through `os.listdir`:
`rootListing` is `os.listdir(root)` (`none` models the call raising),
`isDir` is `os.path.isdir(os.path.join(root, d))`, and `folderListing p`
is `os.listdir(p)` for a folder path `p` (`none` models raising). -/
structure Fs where
  rootListing : Option (List String)
  isDir : String → Bool
  folderListing : String → Option (List String)

/-- The `IMG_EXTS` extension set from the source. -/
def IMG_EXTS : List String := [".png", ".jpg", ".jpeg", ".webp", ".bmp", ".tiff"]

/-- The `ALLOWED_IMAGES` set from the source: the fixed two-entry filename allowlist. -/
def ALLOWED_IMAGES : List String :=
  ["Mirror Change Top Layers _ Alpha_ 0_5.png", "No Intervension _ Alpha_ 0_5.png"]

/-- Core of `os.path.splitext` for a bare directory entry (no path
separator): returns the suffix starting at the last `.`, provided some
character strictly before that dot is not itself a dot (CPython skips
leading dots of the basename). The boolean argument records whether a
non-dot character has been seen to the left of the current position. -/
def splitExtGo : List Char → Bool → Option (List Char)
  | [], _ => none
  | c :: rest, seen =>
    match splitExtGo rest (seen || c != '.') with
    | some e => some e
    | none => if c == '.' && seen then some (c :: rest) else none

/-- Python `os.path.splitext(f)[1].lower()` for a bare filename, with ASCII
lowercasing (the extensions compared against are ASCII). -/
def extOf (f : String) : String :=
  match splitExtGo f.data false with
  | some e => String.mk (e.map Char.toLower)
  | none => ""

/-- Python `str` comparison `a <= b`: lexicographic on code points. -/
def charListLe : List Char → List Char → Bool
  | [], _ => true
  | _ :: _, [] => false
  | a :: as, b :: bs =>
    if a.toNat < b.toNat then true
    else if b.toNat < a.toNat then false
    else charListLe as bs

/-- Comparison `a <= b` on Python strings. -/
def strLe (a b : String) : Bool := charListLe a.data b.data

/-- Insert into a sorted list (ascending by `strLe`). -/
def insertSorted (x : String) : List String → List String
  | [] => [x]
  | y :: ys => if strLe x y then x :: y :: ys else y :: insertSorted x ys

/-- Python `list.sort()` on strings: ascending lexicographic sort.
(Any ascending sort of strings yields the same list, since code-point
comparison is a total antisymmetric order; insertion sort is used because
it reduces inside the kernel.) -/
def sortStrings : List String → List String
  | [] => []
  | x :: xs => insertSorted x (sortStrings xs)

/-- Source `list_folders(root)`: the sorted immediate-subdirectory names, or `[]`
if `os.listdir` raised. -/
def list_folders (fs : Fs) : List String :=
  match fs.rootListing with
  | none => []
  | some entries => sortStrings (entries.filter fs.isDir)

/-- The filter applied to each directory entry by `list_images`: extension
in `IMG_EXTS` and exact name in `ALLOWED_IMAGES`. -/
def qualifies (f : String) : Bool :=
  IMG_EXTS.contains (extOf f) && ALLOWED_IMAGES.contains f

/-- Source `list_images(folder_path)`: the qualifying filenames, sorted; `[]` if
`os.listdir` raised (the `except: pass` leaves `files` empty and the
function still returns the sorted `files`). -/
def list_images (fs : Fs) (folderPath : String) : List String :=
  match fs.folderListing folderPath with
  | none => []
  | some files => sortStrings (files.filter qualifies)

/-- Python `os.path.join(base_dir, folder)` for a relative folder name. -/
def pathJoin (a b : String) : String := a ++ "/" ++ b

/-- One entry of `st.session_state.questions`. -/
structure Question where
  folder : String
  path : String
  images : List String
deriving DecidableEq, Repr

/-- The "Start / Refresh" handler's question-list construction: list the
folders, optionally shuffle them with seed `"{participant}|questions"`,
then for each folder list its qualifying images, optionally shuffle them
with seed `"{participant}|{folder}"`, and keep the folder as a question
only if the image list is nonempty. `sh` is the seeded shuffle. -/
def startRefresh (sh : String → List String → List String) (root : String)
    (fs : Fs) (participant : String) (shuffleQ shuffleI : Bool) : List Question :=
  let folders := list_folders fs
  let folders := if shuffleQ then sh (participant ++ "|questions") folders else folders
  folders.filterMap (fun folder =>
    let folderPath := pathJoin root folder
    let imgs := list_images fs folderPath
    let imgs := if shuffleI then sh (participant ++ "|" ++ folder) imgs else imgs
    if imgs.isEmpty then none else some ⟨folder, folderPath, imgs⟩)

/-- The recorded answer for a folder: the `{"mode": ..., "choice": ...}`
dict. `best` carries `choice` (a filename), `worst_equal` carries the list
`choice` of all other images, `noneMode` is `mode == "none"`. -/
inductive Answer where
  | best (choice : String)
  | worst_equal (others : List String)
  | noneMode
deriving DecidableEq, Repr

/-- The parts of `st.session_state` touched by the selection callbacks:
the `answers` dict (folder → answer, `none` = absent) and the checkbox
keys `best::{folder}::{fname}`, `worst::{folder}::{fname}`,
`none::{folder}`. -/
structure SessionState where
  answers : String → Option Answer
  bestKey : String → String → Bool
  worstKey : String → String → Bool
  noneKey : String → Bool

/-- Callback `_select_best(chosen_fname)` for the current question (`folder`,
`imgs`): record `{"mode": "best", "choice": chosen}`, set each best key of
the question to `fname == chosen`, clear all its worst keys and its none
key. -/
def _select_best (folder : String) (imgs : List String) (chosen : String)
    (s : SessionState) : SessionState where
  answers := fun f => if f = folder then some (.best chosen) else s.answers f
  bestKey := fun fo fn =>
    if fo = folder && imgs.contains fn then fn == chosen else s.bestKey fo fn
  worstKey := fun fo fn =>
    if fo = folder && imgs.contains fn then false else s.worstKey fo fn
  noneKey := fun fo => if fo = folder then false else s.noneKey fo

/-- Callback `_select_worst(chosen_fname)`: record
`{"mode": "worst_equal", "choice": [f for f in imgs if f != chosen]}`, set
each worst key to `fname == chosen`, clear the best keys and the none key. -/
def _select_worst (folder : String) (imgs : List String) (chosen : String)
    (s : SessionState) : SessionState where
  answers := fun f =>
    if f = folder then some (.worst_equal (imgs.filter (fun g => g != chosen)))
    else s.answers f
  bestKey := fun fo fn =>
    if fo = folder && imgs.contains fn then false else s.bestKey fo fn
  worstKey := fun fo fn =>
    if fo = folder && imgs.contains fn then fn == chosen else s.worstKey fo fn
  noneKey := fun fo => if fo = folder then false else s.noneKey fo

/-- Callback `_select_none()`: record `{"mode": "none", "choice": None}`, clear all
best and worst keys of the question, set the none key. -/
def _select_none (folder : String) (imgs : List String)
    (s : SessionState) : SessionState where
  answers := fun f => if f = folder then some .noneMode else s.answers f
  bestKey := fun fo fn =>
    if fo = folder && imgs.contains fn then false else s.bestKey fo fn
  worstKey := fun fo fn =>
    if fo = folder && imgs.contains fn then false else s.worstKey fo fn
  noneKey := fun fo => if fo = folder then true else s.noneKey fo

/-- One row of the results table / CSV. -/
structure Row where
  participant : String
  folder : String
  selected_file : String
deriving DecidableEq, Repr

/-- Python `" and ".join(others)`. -/
def joinAnd : List String → String
  | [] => ""
  | [a] => a
  | a :: rest => a ++ " and " ++ joinAnd rest

/-- The `worst_equal` message: `f"equal score for {others[0]} and
{others[1]}"` when `len(others) >= 2`, else
`"equal score for " + " and ".join(others)`. -/
def worstEqualMsg : List String → String
  | a :: b :: _ => "equal score for " ++ a ++ " and " ++ b
  | others => "equal score for " ++ joinAnd others

/-- One iteration of the results-building loop for folder `f`. The
`mode == "none"` branch evaluates the name `none_label`, which is defined
nowhere in the program, so CPython raises `NameError`; that branch is an
`Except.error`. -/
def rowFor (participant : String) (answers : String → Option Answer)
    (f : String) : Except String Row :=
  match answers f with
  | none => .ok ⟨participant, f, ""⟩
  | some (.best c) => .ok ⟨participant, f, c⟩
  | some (.worst_equal others) => .ok ⟨participant, f, worstEqualMsg others⟩
  | some .noneMode => .error "NameError: name none_label is not defined"

/-- The results-building loop: one row appended per entry of `questions`
(the session's question list), in that list's order; aborts with the
`NameError` if any visited answer has mode `"none"`. -/
def resultsRows (participant : String) (answers : String → Option Answer) :
    List Question → Except String (List Row)
  | [] => .ok []
  | q :: rest => do
    let r ← rowFor participant answers q.folder
    let rs ← resultsRows participant answers rest
    return r :: rs

/-- The `csv` module's minimal quoting: quote a field iff it contains the
delimiter, the quote character, or a newline; double embedded quotes. -/
def csvQuote (s : String) : String :=
  if s.contains ',' || s.contains '"' || s.contains '\r' || s.contains '\n' then
    "\"" ++ s.replace "\"" "\"\"" ++ "\""
  else s

/-- One CSV record with the writer's default `\r\n` terminator. -/
def csvLine (r : Row) : String :=
  csvQuote r.participant ++ "," ++ csvQuote r.folder ++ ","
    ++ csvQuote r.selected_file ++ "\r\n"

/-- The `csv_text` value: header then one record per row. -/
def csvText (rows : List Row) : String :=
  "participant,folder,selected_file\r\n" ++ String.join (rows.map csvLine)

/-- Whether the two disk side effects of the export block succeed:
`makedirsOk` for `os.makedirs(results_dir, exist_ok=True)` and `writeOk`
for `open(file_path, "w")` + `f.write(csv_text)`. -/
structure DiskFs where
  makedirsOk : Bool
  writeOk : Bool
deriving DecidableEq, Repr

/-- What the export block leaves on screen: either the script crashed with
an uncaught exception before the download button rendered, or the page
rendered — with a warning iff the file write failed — offering `download`
(the bytes of `csv_text`) via the download button. -/
inductive ExportOutcome where
  | crashed (msg : String)
  | rendered (diskWarning : Bool) (download : String)
deriving DecidableEq, Repr

/-- Lines 319–336 of the source: `os.makedirs` runs *outside* the
`try`/`except`, so its failure is an uncaught exception that halts the
script before `st.download_button`; the `open`/`write` pair is inside the
`try`, so its failure only produces `st.warning`, and the download button
always receives `csv_bytes` when reached. -/
def exportToDisk (text : String) (dfs : DiskFs) : ExportOutcome :=
  if dfs.makedirsOk then .rendered (!dfs.writeOk) text
  else .crashed "OSError raised by os.makedirs"

/-- The render-time clamp `idx = max(0, min(idx, nq - 1))`. -/
def clampIdx (nq : Nat) (idx : Int) : Int :=
  max 0 (min idx ((nq : Int) - 1))

/-- The Next button: `current_idx = min(nq - 1, idx + 1)`. -/
def nextIdx (nq : Nat) (idx : Int) : Int :=
  min ((nq : Int) - 1) (idx + 1)

/-- The Previous button: `current_idx = max(0, idx - 1)`. -/
def prevIdx (idx : Int) : Int :=
  max 0 (idx - 1)

/-! Concrete fixtures used for examples, counterexamples and witnesses. -/

/-- First allowlisted filename. -/
def allowed1 : String := "Mirror Change Top Layers _ Alpha_ 0_5.png"

/-- Second allowlisted filename. -/
def allowed2 : String := "No Intervension _ Alpha_ 0_5.png"

/-- A shuffle outcome reversing every list: one possible behaviour of the
seeded `random.Random(seed).shuffle`. -/
def revSh : String → List String → List String := fun _ l => l.reverse

/-- The identity shuffle outcome (the seeded shuffle can also leave a list
unchanged). -/
def idSh : String → List String → List String := fun _ l => l

/-- Root with folders `F1`, `F2`, each holding one allowlisted image. -/
def fsC1 : Fs where
  rootListing := some ["F1", "F2"]
  isDir := fun _ => true
  folderListing := fun p =>
    if p = "root/F1" then some [allowed1]
    else if p = "root/F2" then some [allowed1]
    else none

/-- Answers `{F1: Best("img1.png")}`, `F2` unanswered. -/
def answersC1 : String → Option Answer :=
  fun f => if f = "F1" then some (.best "img1.png") else none

/-- Root with folder `A` holding both allowlisted files and folder `B`
holding neither. -/
def fsAB : Fs where
  rootListing := some ["A", "B"]
  isDir := fun _ => true
  folderListing := fun p =>
    if p = "root/A" then some [allowed1, allowed2]
    else if p = "root/B" then some ["other.txt"]
    else none

/-- A filesystem on which every `os.listdir` call raises. -/
def fsErr : Fs where
  rootListing := none
  isDir := fun _ => false
  folderListing := fun _ => none

/-- The blank session state (every checkbox `False`, no answers). -/
def s0 : SessionState where
  answers := fun _ => none
  bestKey := fun _ _ => false
  worstKey := fun _ _ => false
  noneKey := fun _ => false

deriving instance DecidableEq for Except

/-! Helper lemmas. -/

theorem insertSorted_perm (x : String) (l : List String) :
    (insertSorted x l).Perm (x :: l) := by
  induction l with
  | nil => simp [insertSorted]
  | cons y ys ih =>
    by_cases h : strLe x y = true
    · simp [insertSorted, h]
    · simp only [insertSorted, h, if_false, Bool.false_eq_true, ite_false]
      exact (ih.cons y).trans (List.Perm.swap x y ys)

theorem sortStrings_perm (l : List String) : (sortStrings l).Perm l := by
  induction l with
  | nil => simp [sortStrings]
  | cons x xs ih => exact (insertSorted_perm x (sortStrings xs)).trans (ih.cons x)

theorem list_images_perm (fs : Fs) (path : String) :
    (list_images fs path).Perm
      (((fs.folderListing path).getD []).filter qualifies) := by
  cases h : fs.folderListing path with
  | none => simp [list_images, h]
  | some files => simpa [list_images, h] using sortStrings_perm (files.filter qualifies)

theorem rowFor_folder {p : String} {a : String → Option Answer} {f : String}
    {r : Row} (h : rowFor p a f = .ok r) : r.folder = f ∧ r.participant = p := by
  unfold rowFor at h
  cases ha : a f <;> rw [ha] at h
  · cases h; exact ⟨rfl, rfl⟩
  · rename_i an
    cases an <;> simp only [] at h <;> first
      | (cases h; exact ⟨rfl, rfl⟩)
      | cases h

theorem resultsRows_ok_folders {p : String} {a : String → Option Answer} :
    ∀ {qs : List Question} {rows : List Row},
      resultsRows p a qs = .ok rows →
      rows.map Row.folder = qs.map Question.folder := by
  intro qs
  induction qs with
  | nil => intro rows h; cases h; rfl
  | cons q rest ih =>
    intro rows h
    unfold resultsRows at h
    cases h1 : rowFor p a q.folder <;> rw [h1] at h
    · cases h
    · rename_i r
      cases h2 : resultsRows p a rest <;> rw [h2] at h
      · cases h
      · rename_i rs
        cases h
        simp [List.map, (rowFor_folder h1).1, ih h2]

/-! Claim theorems. -/

/-- C4: for every root directory path, the catalog loader's folder
enumeration (`list_folders`) and per-folder image listing (`list_images`)
never raise to the caller — they are total functions — and any filesystem
error (the `os.listdir` call raising, modelled as a `none` listing) is
swallowed and yields the empty list. -/
theorem C4_failSoft : ∀ (fs : Fs) (p : String),
    (fs.rootListing = none → list_folders fs = []) ∧
    (fs.folderListing p = none → list_images fs p = []) := by
  intro fs p
  constructor
  · intro h; simp [list_folders, h]
  · intro h; simp [list_images, h]

theorem C4_failSoft_witness :
    list_folders fsErr = [] ∧ list_images fsErr "root/F" = [] :=
  ⟨(C4_failSoft fsErr "root/F").1 rfl, (C4_failSoft fsErr "root/F").2 rfl⟩

/-- C8: in every active session (`1 ≤ nq` questions), the rendered index
is clamped into `[0, nq-1]`; Next (`min(nq-1, idx+1)`) and Previous
(`max(0, idx-1)`) keep the index in that range, Next is a no-op at the
last question, Previous is a no-op at index 0, and away from the
boundaries they increment / decrement by exactly one. -/
theorem C8_navigation : ∀ (nq : Nat) (idx : Int), 1 ≤ nq →
    (0 ≤ clampIdx nq idx ∧ clampIdx nq idx ≤ (nq : Int) - 1) ∧
    (∀ i : Int, 0 ≤ i → i ≤ (nq : Int) - 1 →
      0 ≤ nextIdx nq i ∧ nextIdx nq i ≤ (nq : Int) - 1 ∧
      0 ≤ prevIdx i ∧ prevIdx i ≤ (nq : Int) - 1) ∧
    nextIdx nq ((nq : Int) - 1) = (nq : Int) - 1 ∧
    prevIdx 0 = 0 ∧
    (∀ i : Int, 0 ≤ i → i + 1 ≤ (nq : Int) - 1 → nextIdx nq i = i + 1) ∧
    (∀ i : Int, 1 ≤ i → prevIdx i = i - 1) := by
  intro nq idx h
  refine ⟨⟨?_, ?_⟩, fun i h0 h1 => ⟨?_, ?_, ?_, ?_⟩, ?_, ?_,
      fun i h0 h1 => ?_, fun i h1 => ?_⟩ <;>
    simp only [clampIdx, nextIdx, prevIdx] <;> omega

theorem C8_navigation_witness :
    nextIdx 2 (((2 : Nat) : Int) - 1) = ((2 : Nat) : Int) - 1 ∧ prevIdx 0 = 0 :=
  ⟨(C8_navigation 2 5 (by decide)).2.2.1, (C8_navigation 2 5 (by decide)).2.2.2.1⟩

/-- C2 (code bug): `_select_none` does record the `"none"` mode for the
folder, but the export branch for `mode == "none"` evaluates the name
`none_label`, which is defined nowhere in the program, so the export
raises `NameError` instead of producing a constant "none" label row. -/
theorem C2_noneLabelBug :
    (∀ (folder : String) (imgs : List String) (s : SessionState),
      (_select_none folder imgs s).answers folder = some Answer.noneMode) ∧
    resultsRows "p" (fun f => if f = "FolderX" then some Answer.noneMode else none)
        [⟨"FolderX", "root/FolderX", [allowed1]⟩]
      = Except.error "NameError: name none_label is not defined" := by
  constructor
  · intro folder imgs s; simp [_select_none]
  · decide

/-- C7: `_select_worst(folder, f)` records `worst_equal` over all images
of the folder except `f`; the exported message is
`"equal score for {a} and {b}"` for two or more others and
`"equal score for {a}"` for exactly one; in particular for images
`["a.png", "b.png"]` with worst `"a.png"` the exported selected file is
`"equal score for b.png"`. -/
theorem C7_worstEqualExport :
    (∀ (folder : String) (imgs : List String) (chosen : String) (s : SessionState),
      (_select_worst folder imgs chosen s).answers folder
        = some (Answer.worst_equal (imgs.filter (fun g => g != chosen)))) ∧
    (∀ (a b : String) (rest : List String),
      worstEqualMsg (a :: b :: rest) = "equal score for " ++ a ++ " and " ++ b) ∧
    (∀ a : String, worstEqualMsg [a] = "equal score for " ++ a) ∧
    rowFor "p" ((_select_worst "F" ["a.png", "b.png"] "a.png" s0).answers) "F"
      = Except.ok ⟨"p", "F", "equal score for b.png"⟩ := by
  refine ⟨?_, ?_, ?_, by decide⟩
  · intro folder imgs chosen s; simp [_select_worst]
  · intro a b rest; rfl
  · intro a; rfl

/-- C10: for a folder with exactly one image, `_select_worst` on that
image records `worst_equal` with an empty others list, and the export
then produces the string `"equal score for "` with nothing appended. -/
theorem C10_singleImageWorst : ∀ (folder img p : String) (s : SessionState),
    (_select_worst folder [img] img s).answers folder
      = some (Answer.worst_equal []) ∧
    rowFor p ((_select_worst folder [img] img s).answers) folder
      = Except.ok ⟨p, folder, "equal score for "⟩ := by
  intro folder img p s
  have hans : (_select_worst folder [img] img s).answers folder
      = some (Answer.worst_equal []) := by
    simp [_select_worst]
  refine ⟨hans, ?_⟩
  rw [rowFor, hans]
  rfl

/-- Mutual exclusivity of the rendered per-folder control states: no best
checkbox of the question is set while any worst checkbox of the question
is set (the images may differ — best, worst and none are mutually
exclusive answer modes), the none checkbox excludes every best and worst
checkbox, and at most one best (resp. worst) checkbox is set among the
question's images. -/
def exclusiveFor (s : SessionState) (folder : String) (imgs : List String) : Prop :=
  (∀ fn₁ ∈ imgs, ∀ fn₂ ∈ imgs,
    ¬(s.bestKey folder fn₁ = true ∧ s.worstKey folder fn₂ = true)) ∧
  (s.noneKey folder = true →
    ∀ fn ∈ imgs, s.bestKey folder fn = false ∧ s.worstKey folder fn = false) ∧
  (∀ fn₁ ∈ imgs, ∀ fn₂ ∈ imgs,
    s.bestKey folder fn₁ = true → s.bestKey folder fn₂ = true → fn₁ = fn₂) ∧
  (∀ fn₁ ∈ imgs, ∀ fn₂ ∈ imgs,
    s.worstKey folder fn₁ = true → s.worstKey folder fn₂ = true → fn₁ = fn₂)

/-- Checkbox-key values after `_select_best` for any image of the
question. -/
theorem keys_after_select_best {folder : String} {imgs : List String}
    {chosen fn : String} {s : SessionState} (h : fn ∈ imgs) :
    (_select_best folder imgs chosen s).bestKey folder fn = (fn == chosen) ∧
    (_select_best folder imgs chosen s).worstKey folder fn = false ∧
    (_select_best folder imgs chosen s).noneKey folder = false := by
  simp [_select_best, List.elem_eq_true_of_mem h, List.contains, h]

theorem keys_after_select_worst {folder : String} {imgs : List String}
    {chosen fn : String} {s : SessionState} (h : fn ∈ imgs) :
    (_select_worst folder imgs chosen s).bestKey folder fn = false ∧
    (_select_worst folder imgs chosen s).worstKey folder fn = (fn == chosen) ∧
    (_select_worst folder imgs chosen s).noneKey folder = false := by
  simp [_select_worst, List.elem_eq_true_of_mem h, List.contains, h]

theorem keys_after_select_none {folder : String} {imgs : List String}
    {fn : String} {s : SessionState} (h : fn ∈ imgs) :
    (_select_none folder imgs s).bestKey folder fn = false ∧
    (_select_none folder imgs s).worstKey folder fn = false ∧
    (_select_none folder imgs s).noneKey folder = true := by
  simp [_select_none, List.elem_eq_true_of_mem h, List.contains, h]

/-- C6: each selection callback records exactly one answer variant for the
folder — in particular `_select_best x` then `_select_best y` leaves the
single answer `best y` — and after any of the three callbacks no two
mutually exclusive control states of the question are simultaneously
true. -/
theorem C6_exclusivity :
    ∀ (folder : String) (imgs : List String) (chosen x y : String) (s : SessionState),
    ((_select_best folder imgs chosen s).answers folder = some (Answer.best chosen)) ∧
    ((_select_best folder imgs y (_select_best folder imgs x s)).answers folder
      = some (Answer.best y)) ∧
    ((_select_worst folder imgs chosen s).answers folder
      = some (Answer.worst_equal (imgs.filter (fun g => g != chosen)))) ∧
    ((_select_none folder imgs s).answers folder = some Answer.noneMode) ∧
    exclusiveFor (_select_best folder imgs chosen s) folder imgs ∧
    exclusiveFor (_select_worst folder imgs chosen s) folder imgs ∧
    exclusiveFor (_select_none folder imgs s) folder imgs := by
  intro folder imgs chosen x y s
  refine ⟨by simp [_select_best], by simp [_select_best], by simp [_select_worst],
    by simp [_select_none], ⟨?_, ?_, ?_, ?_⟩, ⟨?_, ?_, ?_, ?_⟩, ⟨?_, ?_, ?_, ?_⟩⟩
  · intro fn₁ h₁ fn₂ h₂ hboth
    rw [(keys_after_select_best h₂).2.1] at hboth
    exact Bool.false_ne_true hboth.2
  · intro hnone
    intro fn hfn
    exact absurd ((@keys_after_select_best folder imgs chosen fn s hfn).2.2.symm.trans hnone)
      Bool.false_ne_true
  · intro fn₁ h₁ fn₂ h₂ hb₁ hb₂
    rw [(keys_after_select_best h₁).1] at hb₁
    rw [(keys_after_select_best h₂).1] at hb₂
    exact (eq_of_beq hb₁).trans (eq_of_beq hb₂).symm
  · intro fn₁ h₁ fn₂ h₂ hw₁ _
    rw [(keys_after_select_best h₁).2.1] at hw₁
    exact absurd hw₁ Bool.false_ne_true
  · intro fn₁ h₁ fn₂ h₂ hboth
    rw [(keys_after_select_worst h₁).1] at hboth
    exact Bool.false_ne_true hboth.1
  · intro hnone
    intro fn hfn
    exact absurd ((@keys_after_select_worst folder imgs chosen fn s hfn).2.2.symm.trans hnone)
      Bool.false_ne_true
  · intro fn₁ h₁ fn₂ h₂ hb₁ _
    rw [(keys_after_select_worst h₁).1] at hb₁
    exact absurd hb₁ Bool.false_ne_true
  · intro fn₁ h₁ fn₂ h₂ hw₁ hw₂
    rw [(keys_after_select_worst h₁).2.1] at hw₁
    rw [(keys_after_select_worst h₂).2.1] at hw₂
    exact (eq_of_beq hw₁).trans (eq_of_beq hw₂).symm
  · intro fn₁ h₁ fn₂ h₂ hboth
    rw [(keys_after_select_none h₁).1] at hboth
    exact Bool.false_ne_true hboth.1
  · intro _ fn hfn
    exact ⟨(keys_after_select_none hfn).1, (keys_after_select_none hfn).2.1⟩
  · intro fn₁ h₁ fn₂ h₂ hb₁ _
    rw [(keys_after_select_none h₁).1] at hb₁
    exact absurd hb₁ Bool.false_ne_true
  · intro fn₁ h₁ fn₂ h₂ hw₁ _
    rw [(keys_after_select_none h₁).2.1] at hw₁
    exact absurd hw₁ Bool.false_ne_true

theorem C6_exclusivity_witness :
    exclusiveFor (_select_best "F" [allowed1, allowed2] allowed1 s0) "F"
      [allowed1, allowed2] :=
  (C6_exclusivity "F" [allowed1, allowed2] allowed1 allowed1 allowed2 s0).2.2.2.2.1

/-- C1 counterexample: with catalog order `[F1, F2]` and answers
`{F1: Best("img1.png"), F2: unanswered}`, a session whose seeded shuffle
reversed the folder list produces the CSV rows in the shuffled display
order `[F2, F1]`, not the catalog-order rows the claim promises. -/
theorem C1_counterexample :
    resultsRows "name" answersC1 (startRefresh revSh "root" fsC1 "name" true true)
      ≠ Except.ok [⟨"name", "F1", "img1.png"⟩, ⟨"name", "F2", ""⟩] := by
  decide

/-- C1 (amended): the exporter builds exactly one result row per question
in the session's question order (the shuffled display order when
shuffling is on, the sorted catalog order otherwise), with an empty
selected file for an unanswered folder; the claimed example rows
`[("name","F1","img1.png"), ("name","F2","")]` are produced when the
session order coincides with the catalog order `[F1, F2]`. -/
theorem C1_exportOrder :
    (∀ (p : String) (a : String → Option Answer) (qs : List Question)
        (rows : List Row),
      resultsRows p a qs = Except.ok rows →
      rows.map Row.folder = qs.map Question.folder ∧ rows.length = qs.length) ∧
    (∀ (p : String) (a : String → Option Answer) (f : String),
      a f = none → rowFor p a f = Except.ok ⟨p, f, ""⟩) ∧
    resultsRows "name" answersC1 (startRefresh revSh "root" fsC1 "name" false false)
      = Except.ok [⟨"name", "F1", "img1.png"⟩, ⟨"name", "F2", ""⟩] := by
  refine ⟨?_, ?_, by decide⟩
  · intro p a qs rows h
    have hm := resultsRows_ok_folders h
    refine ⟨hm, ?_⟩
    have := congrArg List.length hm
    simpa using this
  · intro p a f h
    simp [rowFor, h]

theorem C1_exportOrder_witness :
    (([⟨"name", "F1", "img1.png"⟩, ⟨"name", "F2", ""⟩] : List Row).map Row.folder
      = (startRefresh revSh "root" fsC1 "name" false false).map Question.folder) ∧
    (([⟨"name", "F1", "img1.png"⟩, ⟨"name", "F2", ""⟩] : List Row).length
      = (startRefresh revSh "root" fsC1 "name" false false).length) :=
  C1_exportOrder.1 "name" answersC1
    (startRefresh revSh "root" fsC1 "name" false false)
    [⟨"name", "F1", "img1.png"⟩, ⟨"name", "F2", ""⟩] (by decide)

/-- C3 counterexample: when `os.makedirs` fails (read-only filesystem with
no existing `{root}/results` directory), the exception is raised outside
the `try` block, the script crashes, and the download button is never
rendered — the claimed warning-plus-download outcome does not occur. -/
theorem C3_counterexample :
    exportToDisk (csvText [⟨"name", "F1", "img1.png"⟩]) ⟨false, false⟩
      = ExportOutcome.crashed "OSError raised by os.makedirs" ∧
    exportToDisk (csvText [⟨"name", "F1", "img1.png"⟩]) ⟨false, false⟩
      ≠ ExportOutcome.rendered true (csvText [⟨"name", "F1", "img1.png"⟩]) := by
  exact ⟨rfl, by decide⟩

/-- C3 (amended): failure of the CSV file write itself (`open`/`write`,
inside the `try`) is caught and surfaced as a non-fatal warning, and the
download is still offered with exactly the intended CSV bytes,
independently of write success; but failure of creating the results
directory (`os.makedirs`, outside the `try`) is not caught and aborts the
script before any download is offered. -/
theorem C3_downloadIndependence :
    (∀ (rows : List Row) (writeOk : Bool),
      exportToDisk (csvText rows) ⟨true, writeOk⟩
        = ExportOutcome.rendered (!writeOk) (csvText rows)) ∧
    (∀ (text : String) (writeOk : Bool),
      exportToDisk text ⟨false, writeOk⟩
        = ExportOutcome.crashed "OSError raised by os.makedirs") := by
  exact ⟨fun rows writeOk => rfl, fun text writeOk => rfl⟩

/-- C5: the session built by Start/Refresh (both randomize options on) is
a pure function of the filesystem contents and of the shuffle outcomes at
the seeds `"{participant}|questions"` and `"{participant}|{folder}"`: two
shuffle sources agreeing at those seeds produce identical question order
and identical per-folder image order, so repeated runs for the same
participant name over the same filesystem are identical. -/
theorem C5_seedDeterminism :
    ∀ (sh₁ sh₂ : String → List String → List String) (root : String)
      (fs : Fs) (p : String),
      sh₁ (p ++ "|questions") = sh₂ (p ++ "|questions") →
      (∀ folder : String, sh₁ (p ++ "|" ++ folder) = sh₂ (p ++ "|" ++ folder)) →
      startRefresh sh₁ root fs p true true = startRefresh sh₂ root fs p true true := by
  intro sh₁ sh₂ root fs p hq hi
  simp only [startRefresh, if_true]
  rw [hq]
  exact List.filterMap_congr (fun a _ => by rw [hi a])

theorem C5_seedDeterminism_witness :
    startRefresh revSh "root" fsC1 "p" true true
      = startRefresh revSh "root" fsC1 "p" true true :=
  C5_seedDeterminism revSh revSh "root" fsC1 "p" rfl (fun _ => rfl)

/-- C9: for any shuffle source whose outcomes are permutations, every
question of the built session has a nonempty image list that is a
permutation of exactly the files physically listed in its folder that
pass the fixed allowlist-and-extension filter, every catalog folder with
at least one qualifying image yields a question, and the concrete root
with folder `A` (both allowlisted files) and folder `B` (neither) yields
exactly the single question `A`. -/
theorem C9_imageAllowlist :
    (∀ (sh : String → List String → List String) (root : String) (fs : Fs)
        (p : String) (fq fi : Bool),
      (∀ s l, (sh s l).Perm l) →
      (∀ q ∈ startRefresh sh root fs p fq fi,
        q.images ≠ [] ∧
        q.images.Perm (((fs.folderListing q.path).getD []).filter qualifies)) ∧
      (∀ folder ∈ list_folders fs,
        list_images fs (pathJoin root folder) ≠ [] →
        ∃ q ∈ startRefresh sh root fs p fq fi, q.folder = folder)) ∧
    startRefresh idSh "root" fsAB "p" false false
      = [⟨"A", pathJoin "root" "A", [allowed1, allowed2]⟩] := by
  refine ⟨?_, by decide⟩
  intro sh root fs p fq fi hperm
  constructor
  · intro q hq
    simp only [startRefresh, List.mem_filterMap] at hq
    obtain ⟨a, ha, hfa⟩ := hq
    by_cases he : (if fi then sh (p ++ "|" ++ a) (list_images fs (pathJoin root a))
        else list_images fs (pathJoin root a)).isEmpty
    · rw [if_pos he] at hfa
      cases hfa
    · rw [if_neg he] at hfa
      cases hfa
      have hne : (if fi then sh (p ++ "|" ++ a) (list_images fs (pathJoin root a))
          else list_images fs (pathJoin root a)) ≠ [] := by
        intro h
        rw [h] at he
        exact he rfl
      refine ⟨hne, ?_⟩
      have hp : (if fi then sh (p ++ "|" ++ a) (list_images fs (pathJoin root a))
          else list_images fs (pathJoin root a)).Perm
            (list_images fs (pathJoin root a)) := by
        by_cases hfi : fi
        · rw [if_pos hfi]
          exact hperm _ _
        · rw [if_neg hfi]
      exact hp.trans (list_images_perm fs (pathJoin root a))
  · intro folder hmem hne
    have hmem' : folder ∈ (if fq then sh (p ++ "|questions") (list_folders fs)
        else list_folders fs) := by
      by_cases hfq : fq
      · rw [if_pos hfq]
        exact ((hperm _ _).mem_iff).mpr hmem
      · rw [if_neg hfq]
        exact hmem
    have hne' : (if fi then sh (p ++ "|" ++ folder) (list_images fs (pathJoin root folder))
        else list_images fs (pathJoin root folder)) ≠ [] := by
      by_cases hfi : fi
      · rw [if_pos hfi]
        intro h
        have hp : (list_images fs (pathJoin root folder)).Perm [] := by
          rw [← h]
          exact (hperm _ _).symm
        exact hne hp.eq_nil
      · rw [if_neg hfi]
        exact hne
    refine ⟨⟨folder, pathJoin root folder,
        if fi then sh (p ++ "|" ++ folder) (list_images fs (pathJoin root folder))
        else list_images fs (pathJoin root folder)⟩, ?_, rfl⟩
    simp only [startRefresh, List.mem_filterMap]
    refine ⟨folder, hmem', ?_⟩
    rw [if_neg (fun h => hne' (List.isEmpty_iff.mp h))]

theorem C9_imageAllowlist_witness :
    ([allowed1, allowed2] ≠ ([] : List String)) ∧
    List.Perm [allowed1, allowed2]
      (((fsAB.folderListing (pathJoin "root" "A")).getD []).filter qualifies) :=
  (C9_imageAllowlist.1 idSh "root" fsAB "p" false false
      (fun _ l => List.Perm.refl l)).1
    ⟨"A", pathJoin "root" "A", [allowed1, allowed2]⟩ (by decide)

end MirrorOTW
